import Mathlib

/-!
# Verification of `fetch_images.py`

A shallow embedding of the single source file `src/fetch_images.py` of the
repository `alt-text-via-llm`, together with theorems settling the frozen
claims about it.

Modelling conventions:
* JSON values decoded by `json.loads` are modelled by the inductive `JValue`;
  Python truthiness of such values is `truthy`.
* The network is an oracle parameter: the metadata endpoint is a function
  `net : String → NetResult` from URLs to responses, and the image endpoint
  is a function `netImg : String → DlOutcome` describing how the GET-and-write
  of one image plays out.  `urllib.request.urlopen` raises `HTTPError` for a
  response whose final status is not 2xx, which `urlopen_model` reflects.
* `json.loads` itself is an oracle `loads : String → Except String JValue`
  (the JSON grammar is outside this repository).
* The filesystem is an association list from paths to file contents
  (a `String` of bytes); `os.path.exists` is `isSome` of the lookup.
  Directory creation (`mkdir`) does not affect any claim and is not tracked.
* Every `print` call is recorded as a `Msg` carrying its stream (`Fd.out` for
  plain `print`, `Fd.err` for `file=sys.stderr`).  The tqdm progress bar is
  drawn by the third-party library, not by a `print` in the source, so it is
  not part of the recorded output.
* A raised Python exception is the `Except.error` side of a `PyError`.
-/

/-- A decoded JSON value (the result of `json.loads`).  Python `True`/`False`
and floats do not occur in any claim; the integer case covers the `order`
field and the string case covers `pid`. -/
inductive JValue where
  | null : JValue
  | str : String → JValue
  | int : Int → JValue
  | arr : List JValue → JValue
  | obj : List (String × JValue) → JValue

/-- Python truthiness (`bool(v)`) of a decoded JSON value: `None`, `""`, `0`,
`[]` and `{}` are falsy, everything else is truthy. -/
def truthy : JValue → Bool
  | JValue.null => false
  | JValue.str s => !s.isEmpty
  | JValue.int n => n != 0
  | JValue.arr xs => !xs.isEmpty
  | JValue.obj fs => !fs.isEmpty

/-- `v is None` for a decoded JSON value. -/
def isNull : JValue → Bool
  | JValue.null => true
  | _ => false

/-- Python `d.get(k)`: the value stored under key `k`, or `None` when the key
is absent (Python's `dict.get` conflates an explicit `null` value with an
absent key, and so does this model by defaulting to `JValue.null`).  The
source only calls `.get` on objects; on other values the model also yields
`None` (Python would raise `AttributeError` there, a corner no claim touches). -/
def jget (v : JValue) (k : String) : JValue :=
  match v with
  | JValue.obj fields => (fields.lookup k).getD JValue.null
  | _ => JValue.null

/-- Python `str(v)` for a decoded JSON value, for the cases the program feeds
into f-strings: `order` values (integers or strings) and `pid` values
(strings).  `str` of an `int` is its decimal rendering with a leading `-` for
negatives, exactly `toString : Int → String`.  Python's `repr`-style rendering
of lists/dicts is not needed by any claim and is abbreviated. -/
def pyStr : JValue → String
  | JValue.str s => s
  | JValue.int n => toString n
  | JValue.null => "None"
  | JValue.arr _ => "<list>"
  | JValue.obj _ => "<dict>"

/-- Python `s.zfill(width)`: left-pad with `'0'` up to `width` characters,
keeping a leading sign character in front of the padding. -/
def zfill (s : String) (width : Nat) : String :=
  if width ≤ s.length then s
  else
    let pad := String.mk (List.replicate (width - s.length) '0')
    match s.data with
    | [] => pad
    | c :: rest =>
      if c = '-' ∨ c = '+' then String.mk (c :: (pad.data ++ rest))
      else pad ++ s

/-- Output stream of a logged message. -/
inductive Fd where
  | out : Fd
  | err : Fd
deriving DecidableEq

/-- One message printed by the program, with the stream it went to. -/
structure Msg where
  stream : Fd
  text : String
deriving DecidableEq

/-- The Python exceptions the program raises or propagates. -/
inductive PyError where
  | httpError : Nat → String → PyError
  | urlError : String → PyError
  | jsonDecodeError : String → PyError
  | valueError : String → PyError
  | downloadError : String → PyError
deriving DecidableEq

/-- Python `str(e)` for the exceptions above, as used in f-strings:
`HTTPError` renders as `HTTP Error {code}: {reason}`, `URLError` as
`<urlopen error {reason}>`, and the rest carry their message. -/
def pyErrStr : PyError → String
  | PyError.httpError c r => "HTTP Error " ++ toString c ++ ": " ++ r
  | PyError.urlError r => "<urlopen error " ++ r ++ ">"
  | PyError.jsonDecodeError m => m
  | PyError.valueError m => m
  | PyError.downloadError m => m

/-- The metadata URL built in `fetch_parent_data`. -/
def itemUrl (pid : String) : String :=
  "https://repository.library.brown.edu/api/items/" ++ pid ++ "/"

/-- The IIIF image URL built in `download_images_for_children`. -/
def imageUrl (pid : String) : String :=
  "https://repository.library.brown.edu/iiif/image/" ++ pid ++ "/full/!800,800/0/default.jpg"

/-- An HTTP response from the metadata endpoint. -/
structure HttpResponse where
  status : Nat
  reason : String
  body : String

/-- Outcome of attempting a connection: a response, or a connection/DNS
failure (`URLError`). -/
inductive NetResult where
  | resp : HttpResponse → NetResult
  | netFail : String → NetResult

/-- `urllib.request.urlopen` + `.read().decode('utf-8')`: yields the body on
a 2xx response, raises `HTTPError` (carrying status code and reason) on a
non-2xx final response, and raises `URLError` on connection failure. -/
def urlopen_model (net : String → NetResult) (url : String) : Except PyError String :=
  match net url with
  | NetResult.netFail r => Except.error (PyError.urlError r)
  | NetResult.resp r =>
    if 200 ≤ r.status ∧ r.status < 300 then Except.ok r.body
    else Except.error (PyError.httpError r.status r.reason)

/-- Message logged by `fetch_parent_data` for an `HTTPError`. -/
def httpErrLog (code : Nat) (reason : String) : String :=
  "HTTP Error " ++ toString code ++ ": " ++ reason

/-- Message logged by `fetch_parent_data` for a `URLError`. -/
def urlErrLog (reason : String) : String :=
  "URL Error: " ++ reason

/-- Message logged by `fetch_parent_data` for a `JSONDecodeError`. -/
def jsonErrLog (msg : String) : String :=
  "JSON Decode Error: " ++ msg

/-- `fetch_parent_data(pid)`: GET the item URL, decode the body as JSON.
Each failure is logged to stderr and re-raised.  Returns the outcome together
with the messages printed. -/
def fetch_parent_data (net : String → NetResult) (loads : String → Except String JValue)
    (pid : String) : Except PyError JValue × List Msg :=
  match urlopen_model net (itemUrl pid) with
  | Except.error (PyError.httpError c r) =>
    (Except.error (PyError.httpError c r), [⟨Fd.err, httpErrLog c r⟩])
  | Except.error (PyError.urlError r) =>
    (Except.error (PyError.urlError r), [⟨Fd.err, urlErrLog r⟩])
  | Except.error e => (Except.error e, [])
  | Except.ok body =>
    match loads body with
    | Except.error m =>
      (Except.error (PyError.jsonDecodeError m), [⟨Fd.err, jsonErrLog m⟩])
    | Except.ok data => (Except.ok data, [])

/-- The filter of the list comprehension in `get_child_pids`:
`child.get('pid') and child.get('order') is not None` — the `pid` field is
tested by truthiness, the `order` field only against `None`. -/
def validChild (child : JValue) : Bool :=
  truthy (jget child "pid") && !(isNull (jget child "order"))

/-- The `Found N child PIDs.` notice printed to stdout. -/
def foundMsg (n : Nat) : String :=
  "Found " ++ toString n ++ " child PIDs."

/-- `get_child_pids(parent_data)`: extract the filtered, order-preserving
list of `(pid, order)` pairs from `relations.hasPart`, raising `ValueError`
with a distinct message when `relations` is falsy, when `hasPart` is falsy,
or when no entry passes the filter.  Returns the outcome together with the
messages printed.  Iterating a truthy non-list `hasPart` would raise a
`TypeError`/`AttributeError` in Python; no claim reaches that corner and it
is modelled as an error. -/
def get_child_pids (parent_data : JValue) :
    Except PyError (List (JValue × JValue)) × List Msg :=
  let relations := jget parent_data "relations"
  if !truthy relations then
    (Except.error (PyError.valueError "No relations found in parent data."), [])
  else
    let children := jget relations "hasPart"
    if !truthy children then
      (Except.error (PyError.valueError "No child items found in parent data."), [])
    else
      match children with
      | JValue.arr cs =>
        let child_pids_and_pages := cs.filterMap (fun child =>
          if validChild child then some (jget child "pid", jget child "order") else none)
        if child_pids_and_pages.isEmpty then
          (Except.error (PyError.valueError "No valid child PIDs found."), [])
        else
          let n := child_pids_and_pages.length
          (Except.ok child_pids_and_pages, [⟨Fd.out, foundMsg n⟩])
      | _ => (Except.error (PyError.valueError "TypeError: hasPart is not a list."), [])

/-- How the GET-and-write of one image plays out when actually attempted:
success with the body's bytes; a failure before the destination file is
opened (`urlopen` itself raised); or a failure after `open(output_path,'wb')`
has created/truncated the file, leaving `written` bytes behind. -/
inductive DlOutcome where
  | success : String → DlOutcome
  | failBeforeOpen : String → DlOutcome
  | failAfterOpen : String → String → DlOutcome

/-- The `Image already exists …` notice printed to stdout. -/
def skipMsg (output_path : String) : String :=
  "Image already exists at " ++ output_path ++ ", skipping download."

/-- Message logged to stderr when an image download fails. -/
def failDlMsg (image_url msg : String) : String :=
  "Failed to download image from " ++ image_url ++ ": " ++ msg

/-- Result of one `download_image` call: the outcome, the filesystem after
the call, the messages printed, and the image URLs actually requested over
the network. -/
structure DlResult where
  result : Except PyError Unit
  fs : List (String × String)
  output : List Msg
  requests : List String

/-- `download_image(image_url, output_path)`: skip (and report to stdout)
when the destination exists, making no network request; otherwise GET the
URL and write the body.  Any failure is logged to stderr and re-raised; no
cleanup of the destination file is performed. -/
def download_image (outcome : DlOutcome) (fs : List (String × String))
    (image_url output_path : String) : DlResult :=
  if ((fs.lookup output_path).isSome : Bool) then
    ⟨Except.ok (), fs, [⟨Fd.out, skipMsg output_path⟩], []⟩
  else
    match outcome with
    | DlOutcome.success bytes =>
      ⟨Except.ok (), (output_path, bytes) :: fs, [], [image_url]⟩
    | DlOutcome.failBeforeOpen m =>
      ⟨Except.error (PyError.downloadError m), fs,
        [⟨Fd.err, failDlMsg image_url m⟩], [image_url]⟩
    | DlOutcome.failAfterOpen written m =>
      ⟨Except.error (PyError.downloadError m), (output_path, written) :: fs,
        [⟨Fd.err, failDlMsg image_url m⟩], [image_url]⟩

/-- The destination path `f"{output_dir}/{page}.jpg"` after
`page = str(page).zfill(4)`. -/
def destPath (output_dir : String) (page : JValue) : String :=
  output_dir ++ "/" ++ zfill (pyStr page) 4 ++ ".jpg"

/-- The `(image_url, output_path)` arguments `download_images_for_children`
passes to `download_image` for one `(pid, page)` pair. -/
def invocationOf (output_dir : String) (pr : JValue × JValue) : String × String :=
  (imageUrl (pyStr pr.1), destPath output_dir pr.2)

/-- Message logged to stderr by the download loop when a pair fails. -/
def pidErrMsg (pid : JValue) (e : PyError) : String :=
  "Error processing PID " ++ pyStr pid ++ ": " ++ pyErrStr e

/-- Result of the download loop: the outcome, the filesystem after the loop,
the messages printed, the `(image_url, output_path)` pairs passed to
`download_image`, and the image URLs actually requested over the network. -/
structure BatchResult where
  result : Except PyError Unit
  fs : List (String × String)
  output : List Msg
  invocations : List (String × String)
  requests : List String

/-- `download_images_for_children(child_pids, output_dir)`: for each
`(pid, page)` pair in sequence, zero-pad the page to 4 digits, build the
IIIF URL and destination path, and invoke `download_image`.  On the first
failure the error is logged to stderr with the offending pid and re-raised,
aborting the remaining pairs. -/
def download_images_for_children (netImg : String → DlOutcome) :
    List (JValue × JValue) → String → List (String × String) → BatchResult
  | [], _, fs => ⟨Except.ok (), fs, [], [], []⟩
  | (pid, page) :: rest, output_dir, fs =>
    let image_url := imageUrl (pyStr pid)
    let output_path := destPath output_dir page
    let d := download_image (netImg image_url) fs image_url output_path
    match d.result with
    | Except.error e =>
      ⟨Except.error e, d.fs, d.output ++ [⟨Fd.err, pidErrMsg pid e⟩],
        [(image_url, output_path)], d.requests⟩
    | Except.ok _ =>
      let r := download_images_for_children netImg rest output_dir d.fs
      ⟨r.result, r.fs, d.output ++ r.output,
        (image_url, output_path) :: r.invocations, d.requests ++ r.requests⟩

/-- Python `s.strip()`: remove leading and trailing whitespace (Lean's
`Char.isWhitespace` covers the ASCII whitespace Python strips; exotic Unicode
whitespace does not occur in command-line pids). -/
def pyStrip (s : String) : String :=
  String.mk (((s.data.dropWhile Char.isWhitespace).reverse.dropWhile Char.isWhitespace).reverse)

/-- The `Error: PID cannot be empty.` message. -/
def emptyPidMsg : String := "Error: PID cannot be empty."

/-- The top-level `Error: {e}` message printed by `main`'s handler. -/
def topErrMsg (e : PyError) : String := "Error: " ++ pyErrStr e

/-- Result of one run of `main`: the process exit code, all messages printed,
the metadata URLs requested, the `(image_url, output_path)` pairs passed to
`download_image`, the image URLs actually requested, and the filesystem
after the run. -/
structure RunResult where
  exitCode : Nat
  output : List Msg
  metaRequests : List String
  imageInvocations : List (String × String)
  imageRequests : List String
  fs : List (String × String)

/-- `main()` after argument parsing: reject a pid that is empty after
stripping whitespace (exit 1, no network call), otherwise create the output
directory (not tracked), fetch the parent data, extract the child pids and
download the images, catching any raised error, printing `Error: {e}` to
stderr and exiting with code 1. -/
def main_run (net : String → NetResult) (loads : String → Except String JValue)
    (netImg : String → DlOutcome) (pid output_dir : String)
    (fs : List (String × String)) : RunResult :=
  if pyStrip pid == "" then
    ⟨1, [⟨Fd.err, emptyPidMsg⟩], [], [], [], fs⟩
  else
    let f := fetch_parent_data net loads pid
    match f.1 with
    | Except.error e =>
      ⟨1, f.2 ++ [⟨Fd.err, topErrMsg e⟩], [itemUrl pid], [], [], fs⟩
    | Except.ok data =>
      let g := get_child_pids data
      match g.1 with
      | Except.error e =>
        ⟨1, f.2 ++ g.2 ++ [⟨Fd.err, topErrMsg e⟩], [itemUrl pid], [], [], fs⟩
      | Except.ok child_pids =>
        let b := download_images_for_children netImg child_pids output_dir fs
        match b.result with
        | Except.error e =>
          ⟨1, f.2 ++ g.2 ++ b.output ++ [⟨Fd.err, topErrMsg e⟩], [itemUrl pid],
            b.invocations, b.requests, b.fs⟩
        | Except.ok _ =>
          ⟨0, f.2 ++ g.2 ++ b.output, [itemUrl pid], b.invocations, b.requests, b.fs⟩

/-! ## Concrete fixtures used by witnesses and counterexamples -/

/-- The item record of the worked example in the spec:
`{"relations": {"hasPart": [{"pid": "a:1", "order": 1},
{"pid": "a:2", "order": null}, {"pid": "a:3", "order": 2}]}}`. -/
def rec7 : JValue :=
  JValue.obj [("relations", JValue.obj [("hasPart", JValue.arr
    [JValue.obj [("pid", JValue.str "a:1"), ("order", JValue.int 1)],
     JValue.obj [("pid", JValue.str "a:2"), ("order", JValue.null)],
     JValue.obj [("pid", JValue.str "a:3"), ("order", JValue.int 2)]])])]

/-- A record whose `hasPart` holds one entry with an empty-string `pid`
(both fields present) and one entry with a non-empty `pid` and `order` 0. -/
def rec10 (p : String) (o : JValue) : JValue :=
  JValue.obj [("relations", JValue.obj [("hasPart", JValue.arr
    [JValue.obj [("pid", JValue.str ""), ("order", o)],
     JValue.obj [("pid", JValue.str p), ("order", JValue.int 0)]])])]

/-- A metadata endpoint that always answers 200 OK. -/
def netRespOk : String → NetResult :=
  fun _ => NetResult.resp ⟨200, "OK", "BODY"⟩

/-- A metadata endpoint that always answers 404 Not Found. -/
def net404 : String → NetResult :=
  fun _ => NetResult.resp ⟨404, "Not Found", ""⟩

/-- A JSON decoder that always yields the given record. -/
def loadsConst (d : JValue) : String → Except String JValue :=
  fun _ => Except.ok d

/-- An image endpoint whose downloads always succeed. -/
def imgOk : String → DlOutcome :=
  fun _ => DlOutcome.success "IMG"

/-- An image endpoint whose downloads always fail before the destination
file is opened. -/
def imgFail : String → DlOutcome :=
  fun _ => DlOutcome.failBeforeOpen "boom"

/-- A complete concrete run: valid pid, record `rec7`, an output directory
in which page 1's file `out/0001.jpg` already exists. -/
def run9 : RunResult :=
  main_run netRespOk (loadsConst rec7) imgOk "p:1" "out" [("out/0001.jpg", "X")]

/-! ## Helper lemmas -/

theorem string_data_append (a b : String) : (a ++ b).data = a.data ++ b.data := rfl

theorem isNull_eq_false {o : JValue} (h : o ≠ JValue.null) : isNull o = false := by
  cases o <;> simp_all [isNull]

/-! ## Claims -/

/-- C6: For every pid argument that is empty (or only whitespace after
stripping), the program exits with code 1, prints exactly
`Error: PID cannot be empty.` to standard error, and makes no network call
(no metadata request, no image request). -/
theorem c6_empty_pid_rejected (net : String → NetResult)
    (loads : String → Except String JValue) (netImg : String → DlOutcome)
    (pid dir : String) (fs : List (String × String))
    (h : (pyStrip pid == "") = true) :
    main_run net loads netImg pid dir fs =
      ⟨1, [⟨Fd.err, emptyPidMsg⟩], [], [], [], fs⟩ := by
  simp [main_run, h]

/-- Witness for C6 at the concrete pid `"  "` (whitespace only). -/
theorem c6_empty_pid_rejected_witness :
    (pyStrip "  " == "") = true ∧
    main_run net404 (loadsConst rec7) imgOk "  " "out" [] =
      ⟨1, [⟨Fd.err, emptyPidMsg⟩], [], [], [], []⟩ :=
  ⟨by decide, c6_empty_pid_rejected net404 (loadsConst rec7) imgOk "  " "out" [] (by decide)⟩

/-- C7: On the record
`{"relations": {"hasPart": [{"pid": "a:1", "order": 1},
{"pid": "a:2", "order": null}, {"pid": "a:3", "order": 2}]}}`,
extraction returns exactly the order-preserving list
`[("a:1", 1), ("a:3", 2)]` (the null-order entry dropped) and prints
`Found 2 child PIDs.`. -/
theorem c7_example_extraction :
    get_child_pids rec7 =
      (Except.ok [(JValue.str "a:1", JValue.int 1), (JValue.str "a:3", JValue.int 2)],
       [⟨Fd.out, "Found 2 child PIDs."⟩]) := rfl

/-- C8: When an image download fails after the destination file has been
opened for writing, the error is logged to stderr and re-raised, the bytes
already written remain at the destination (no cleanup), and a subsequent
run's existence check treats the destination as already downloaded (skip,
no request). -/
theorem c8_no_cleanup_after_open (fs : List (String × String))
    (url path w m : String) (outcome2 : DlOutcome)
    (h : fs.lookup path = none) :
    download_image (DlOutcome.failAfterOpen w m) fs url path =
      ⟨Except.error (PyError.downloadError m), (path, w) :: fs,
        [⟨Fd.err, failDlMsg url m⟩], [url]⟩
    ∧ download_image outcome2 ((path, w) :: fs) url path =
      ⟨Except.ok (), (path, w) :: fs, [⟨Fd.out, skipMsg path⟩], []⟩ := by
  constructor
  · simp [download_image, h]
  · simp [download_image]

/-- Witness for C8 at a concrete empty filesystem. -/
theorem c8_no_cleanup_after_open_witness :
    ([] : List (String × String)).lookup "out/0001.jpg" = none ∧
    (download_image (DlOutcome.failAfterOpen "TRUNC" "boom") [] "u" "out/0001.jpg" =
      ⟨Except.error (PyError.downloadError "boom"), [("out/0001.jpg", "TRUNC")],
        [⟨Fd.err, failDlMsg "u" "boom"⟩], ["u"]⟩
    ∧ download_image (DlOutcome.success "IMG") [("out/0001.jpg", "TRUNC")] "u" "out/0001.jpg" =
      ⟨Except.ok (), [("out/0001.jpg", "TRUNC")], [⟨Fd.out, skipMsg "out/0001.jpg"⟩], []⟩) :=
  ⟨rfl, c8_no_cleanup_after_open [] "u" "out/0001.jpg" "TRUNC" "boom"
    (DlOutcome.success "IMG") rfl⟩

/-- C5: For every non-2xx HTTP response to the metadata fetch, the fetch
fails with an `HTTPError` carrying the response's status code and reason,
logged to standard error and re-raised; and the process then exits with
code 1 (for any non-empty pid). -/
theorem c5_http_error_fetch (net : String → NetResult)
    (loads : String → Except String JValue) (pid : String) (r : HttpResponse)
    (hnet : net (itemUrl pid) = NetResult.resp r)
    (hst : r.status < 200 ∨ 300 ≤ r.status) :
    fetch_parent_data net loads pid =
      (Except.error (PyError.httpError r.status r.reason),
       [⟨Fd.err, httpErrLog r.status r.reason⟩])
    ∧ ∀ (netImg : String → DlOutcome) (dir : String) (fs : List (String × String)),
        (pyStrip pid == "") = false →
        (main_run net loads netImg pid dir fs).exitCode = 1 := by
  have hcond : ¬(200 ≤ r.status ∧ r.status < 300) := by omega
  have hfetch : fetch_parent_data net loads pid =
      (Except.error (PyError.httpError r.status r.reason),
       [⟨Fd.err, httpErrLog r.status r.reason⟩]) := by
    simp [fetch_parent_data, urlopen_model, hnet, hcond]
  refine ⟨hfetch, ?_⟩
  intro netImg dir fs hpid
  simp [main_run, hpid, hfetch]

/-- Witness for C5: a metadata endpoint answering 404 makes the fetch fail
with code 404 / reason `Not Found`, and the process exits with code 1. -/
theorem c5_http_error_fetch_witness :
    fetch_parent_data net404 (loadsConst rec7) "x" =
      (Except.error (PyError.httpError 404 "Not Found"),
       [⟨Fd.err, httpErrLog 404 "Not Found"⟩])
    ∧ (main_run net404 (loadsConst rec7) imgOk "x" "out" []).exitCode = 1 := by
  have h := c5_http_error_fetch net404 (loadsConst rec7) "x" ⟨404, "Not Found", ""⟩
    rfl (by decide)
  exact ⟨h.1, h.2 imgOk "out" [] (by decide)⟩

/-- C10: The extraction filter tests `pid` by truthiness and `order` only
against null: an entry whose `pid` is present but equal to the empty string
is dropped even though both fields are present, while an entry with a
non-empty `pid` and `order` equal to 0 is kept; on a record containing
exactly these two entries, extraction keeps only the second. -/
theorem c10_truthiness_filter (p : String) (o : JValue)
    (hp : p ≠ "") (ho : o ≠ JValue.null) :
    validChild (JValue.obj [("pid", JValue.str ""), ("order", o)]) = false
    ∧ validChild (JValue.obj [("pid", JValue.str p), ("order", JValue.int 0)]) = true
    ∧ (get_child_pids (rec10 p o)).1 = Except.ok [(JValue.str p, JValue.int 0)] := by
  have hpe : p.isEmpty = false := by
    rw [Bool.eq_false_iff]
    intro h
    exact hp ((String.isEmpty_iff p).mp h)
  have hno : isNull o = false := isNull_eq_false ho
  have h1 : validChild (JValue.obj [("pid", JValue.str ""), ("order", o)]) = false := rfl
  have h2 : validChild (JValue.obj [("pid", JValue.str p), ("order", JValue.int 0)]) = true := by
    simp [validChild, jget, truthy, isNull, hpe, List.lookup_cons]
  refine ⟨h1, h2, ?_⟩
  simp [get_child_pids, rec10, jget, truthy, List.filterMap, h1, h2, List.lookup_cons]

/-- Witness for C10 at `p = "a:9"`, `o = 7`. -/
theorem c10_truthiness_filter_witness :
    validChild (JValue.obj [("pid", JValue.str ""), ("order", JValue.int 7)]) = false
    ∧ validChild (JValue.obj [("pid", JValue.str "a:9"), ("order", JValue.int 0)]) = true
    ∧ (get_child_pids (rec10 "a:9" (JValue.int 7))).1 =
        Except.ok [(JValue.str "a:9", JValue.int 0)] :=
  c10_truthiness_filter "a:9" (JValue.int 7) (by decide) (by intro h; exact nomatch h)

theorem lookup_cons_isSome (k v : String) (l : List (String × String)) (p : String)
    (h : (l.lookup p).isSome = true) : ((((k, v) :: l).lookup p)).isSome = true := by
  rw [List.lookup_cons]
  split <;> simp [h]

/-- `download_image` never removes a file: any path present before the call
is present after it. -/
theorem download_image_keeps (outcome : DlOutcome) (fs : List (String × String))
    (url path p : String) (h : (fs.lookup p).isSome = true) :
    (((download_image outcome fs url path).fs).lookup p).isSome = true := by
  unfold download_image
  split
  · exact h
  · cases outcome with
    | success b => exact lookup_cons_isSome _ _ _ _ h
    | failBeforeOpen m => exact h
    | failAfterOpen w m => exact lookup_cons_isSome _ _ _ _ h

/-- The download loop never removes a file. -/
theorem batch_keeps (netImg : String → DlOutcome) (pairs : List (JValue × JValue))
    (dir : String) (fs : List (String × String)) (p : String)
    (h : (fs.lookup p).isSome = true) :
    (((download_images_for_children netImg pairs dir fs).fs).lookup p).isSome = true := by
  induction pairs generalizing fs with
  | nil => simpa [download_images_for_children] using h
  | cons pr rest ih =>
    obtain ⟨pid, page⟩ := pr
    have hk := download_image_keeps (netImg (imageUrl (pyStr pid))) fs
      (imageUrl (pyStr pid)) (destPath dir page) p h
    cases hres : (download_image (netImg (imageUrl (pyStr pid))) fs
        (imageUrl (pyStr pid)) (destPath dir page)).result with
    | error e => simpa [download_images_for_children, hres] using hk
    | ok u => simpa [download_images_for_children, hres] using ih _ hk

/-- A `download_image` call that succeeds leaves the destination present. -/
theorem download_image_ok_dest (outcome : DlOutcome) (fs : List (String × String))
    (url path : String) (h : (download_image outcome fs url path).result = Except.ok ()) :
    (((download_image outcome fs url path).fs).lookup path).isSome = true := by
  by_cases hc : (fs.lookup path).isSome = true
  · unfold download_image
    rw [if_pos hc]
    exact hc
  · have hc' : (fs.lookup path).isSome = false := Bool.eq_false_iff.mpr hc
    cases outcome with
    | success b => simp [download_image, hc', List.lookup_cons]
    | failBeforeOpen m => simp [download_image, hc'] at h
    | failAfterOpen w m => simp [download_image, hc'] at h

/-- After a successful run of the download loop, every pair's destination
file is present. -/
theorem batch_ok_dests (netImg : String → DlOutcome) (pairs : List (JValue × JValue))
    (dir : String) (fs : List (String × String))
    (h : (download_images_for_children netImg pairs dir fs).result = Except.ok ()) :
    ∀ pr ∈ pairs,
      (((download_images_for_children netImg pairs dir fs).fs).lookup
        (destPath dir pr.2)).isSome = true := by
  induction pairs generalizing fs with
  | nil => simp
  | cons pr0 rest ih =>
    obtain ⟨pid, page⟩ := pr0
    cases hres : (download_image (netImg (imageUrl (pyStr pid))) fs
        (imageUrl (pyStr pid)) (destPath dir page)).result with
    | error e =>
      rw [download_images_for_children] at h
      simp [hres] at h
    | ok u =>
      rw [download_images_for_children] at h ⊢
      simp only [hres] at h ⊢
      intro pr hpr
      rcases List.mem_cons.mp hpr with hpr | hpr
      · subst hpr
        have hd : (((download_image (netImg (imageUrl (pyStr pid))) fs
            (imageUrl (pyStr pid)) (destPath dir page)).fs).lookup
            (destPath dir page)).isSome = true := by
          cases u
          exact download_image_ok_dest _ _ _ _ hres
        simpa using batch_keeps netImg rest dir _ _ hd
      · have hrest := ih _ (by simpa using h)
        simpa using hrest pr hpr

/-- A `download_image` call whose destination already exists is a skip:
success, untouched filesystem, one stdout notice, no network request. -/
theorem download_image_skip (outcome : DlOutcome) (fs : List (String × String))
    (url path : String) (h : (fs.lookup path).isSome = true) :
    download_image outcome fs url path =
      ⟨Except.ok (), fs, [⟨Fd.out, skipMsg path⟩], []⟩ := by
  unfold download_image
  rw [if_pos h]

/-- When every pair's destination already exists, the download loop succeeds,
touches nothing, requests nothing, and only prints the skip notices. -/
theorem batch_all_skip (netImg : String → DlOutcome) (pairs : List (JValue × JValue))
    (dir : String) (fs : List (String × String))
    (h : ∀ pr ∈ pairs, ((fs.lookup (destPath dir pr.2)).isSome = true)) :
    download_images_for_children netImg pairs dir fs =
      ⟨Except.ok (), fs,
        pairs.map (fun pr => ⟨Fd.out, skipMsg (destPath dir pr.2)⟩),
        pairs.map (invocationOf dir), []⟩ := by
  induction pairs with
  | nil => simp [download_images_for_children]
  | cons pr0 rest ih =>
    obtain ⟨pid, page⟩ := pr0
    have hd := download_image_skip (netImg (imageUrl (pyStr pid))) fs
      (imageUrl (pyStr pid)) (destPath dir page) (h _ (List.mem_cons_self _ _))
    rw [download_images_for_children]
    simp only [hd, ih (fun pr hpr => h pr (List.mem_cons_of_mem _ hpr))]
    simp [invocationOf]

/-- When the download loop succeeds, it has invoked the downloader once per
pair, with the IIIF URL of the pair's pid and the zero-padded destination. -/
theorem batch_ok_invocations (netImg : String → DlOutcome)
    (pairs : List (JValue × JValue)) (dir : String) (fs : List (String × String))
    (h : (download_images_for_children netImg pairs dir fs).result = Except.ok ()) :
    (download_images_for_children netImg pairs dir fs).invocations =
      pairs.map (invocationOf dir) := by
  induction pairs generalizing fs with
  | nil => rw [download_images_for_children]; rfl
  | cons pr0 rest ih =>
    obtain ⟨pid, page⟩ := pr0
    cases hres : (download_image (netImg (imageUrl (pyStr pid))) fs
        (imageUrl (pyStr pid)) (destPath dir page)).result with
    | error e =>
      rw [download_images_for_children] at h
      simp [hres] at h
    | ok u =>
      rw [download_images_for_children] at h ⊢
      simp only [hres] at h ⊢
      simp only [List.map_cons, invocationOf]
      exact congrArg _ (ih _ (by simpa using h))

/-- When the download loop fails, there is a position `i` at which it failed:
the downloader was invoked exactly for the pairs up to and including `i`,
and the error was logged to stderr with pair `i`'s pid. -/
theorem batch_error_first_failure (netImg : String → DlOutcome)
    (pairs : List (JValue × JValue)) (dir : String) (fs : List (String × String))
    (e : PyError)
    (h : (download_images_for_children netImg pairs dir fs).result = Except.error e) :
    ∃ i, ∃ hi : i < pairs.length,
      (download_images_for_children netImg pairs dir fs).invocations =
        (pairs.take (i + 1)).map (invocationOf dir)
      ∧ Msg.mk Fd.err (pidErrMsg (pairs.get ⟨i, hi⟩).1 e)
          ∈ (download_images_for_children netImg pairs dir fs).output := by
  induction pairs generalizing fs with
  | nil => rw [download_images_for_children] at h; exact nomatch h
  | cons pr0 rest ih =>
    obtain ⟨pid, page⟩ := pr0
    cases hres : (download_image (netImg (imageUrl (pyStr pid))) fs
        (imageUrl (pyStr pid)) (destPath dir page)).result with
    | error e' =>
      rw [download_images_for_children] at h ⊢
      simp only [hres] at h ⊢
      have he : e' = e := by simpa using h
      subst he
      refine ⟨0, by simp, ?_, ?_⟩
      · simp [invocationOf]
      · simp
    | ok u =>
      rw [download_images_for_children] at h ⊢
      simp only [hres] at h ⊢
      obtain ⟨i, hi, hinv, hmem⟩ := ih _ (by simpa using h)
      refine ⟨i + 1, by simpa using Nat.succ_lt_succ hi, ?_, ?_⟩
      · simp only [List.take_succ_cons, List.map_cons, invocationOf]
        exact congrArg _ hinv
      · simp only [List.get_cons_succ, List.mem_append]
        exact Or.inr (by simpa using hmem)

/-- C1: For every child list on which the download loop completes, the
downloader is invoked exactly once per (pid, order) pair — in particular the
invocation count equals the pair count — and each invocation's destination
filename is the order rendered as a decimal string zero-padded to 4 digits
followed by `.jpg`; orders 1 and 23 yield `0001.jpg` and `0023.jpg`. -/
theorem c1_loop_count_and_filenames (netImg : String → DlOutcome)
    (pairs : List (JValue × JValue)) (dir : String) (fs : List (String × String))
    (h : (download_images_for_children netImg pairs dir fs).result = Except.ok ()) :
    (download_images_for_children netImg pairs dir fs).invocations =
      pairs.map (invocationOf dir)
    ∧ (download_images_for_children netImg pairs dir fs).invocations.length =
        pairs.length
    ∧ destPath dir (JValue.int 1) = dir ++ "/0001.jpg"
    ∧ destPath dir (JValue.int 23) = dir ++ "/0023.jpg" := by
  have hinv := batch_ok_invocations netImg pairs dir fs h
  refine ⟨hinv, by rw [hinv]; simp, ?_, ?_⟩
  · apply String.ext
    simp only [destPath, string_data_append, List.append_assoc]
    exact congrArg (dir.data ++ ·) (by decide)
  · apply String.ext
    simp only [destPath, string_data_append, List.append_assoc]
    exact congrArg (dir.data ++ ·) (by decide)

/-- Witness for C1: a successful two-pair run with orders 1 and 23. -/
theorem c1_loop_count_and_filenames_witness :
    (download_images_for_children imgOk
        [(JValue.str "a:1", JValue.int 1), (JValue.str "a:2", JValue.int 23)]
        "out" []).invocations =
      List.map (invocationOf "out")
        [(JValue.str "a:1", JValue.int 1), (JValue.str "a:2", JValue.int 23)]
    ∧ (download_images_for_children imgOk
        [(JValue.str "a:1", JValue.int 1), (JValue.str "a:2", JValue.int 23)]
        "out" []).invocations.length =
      [(JValue.str "a:1", JValue.int 1), (JValue.str "a:2", JValue.int 23)].length
    ∧ destPath "out" (JValue.int 1) = "out" ++ "/0001.jpg"
    ∧ destPath "out" (JValue.int 23) = "out" ++ "/0023.jpg" :=
  c1_loop_count_and_filenames imgOk
    [(JValue.str "a:1", JValue.int 1), (JValue.str "a:2", JValue.int 23)]
    "out" [] rfl

/-- C3: Downloading to an existing destination is a success no-op — no
network request, filesystem untouched, skip notice printed — and after a
successful run of the download loop, rerunning it over the same pairs and
output directory (with any image-endpoint behavior) succeeds with zero
image network requests. -/
theorem c3_rerun_idempotent (outcome : DlOutcome) (fs : List (String × String))
    (url path : String) (netImg netImg2 : String → DlOutcome)
    (pairs : List (JValue × JValue)) (dir : String) (fs0 : List (String × String)) :
    ((fs.lookup path).isSome = true →
      download_image outcome fs url path =
        ⟨Except.ok (), fs, [⟨Fd.out, skipMsg path⟩], []⟩)
    ∧ ((download_images_for_children netImg pairs dir fs0).result = Except.ok () →
      download_images_for_children netImg2 pairs dir
          (download_images_for_children netImg pairs dir fs0).fs =
        ⟨Except.ok (), (download_images_for_children netImg pairs dir fs0).fs,
          pairs.map (fun pr => ⟨Fd.out, skipMsg (destPath dir pr.2)⟩),
          pairs.map (invocationOf dir), []⟩) :=
  ⟨fun h => download_image_skip outcome fs url path h,
   fun h => batch_all_skip netImg2 pairs dir _ (batch_ok_dests netImg pairs dir fs0 h)⟩

/-- Witness for C3: a concrete skip, and a concrete second run making zero
requests even against an image endpoint that would fail. -/
theorem c3_rerun_idempotent_witness :
    download_image (DlOutcome.success "IMG") [("out/0001.jpg", "X")] "u" "out/0001.jpg" =
      ⟨Except.ok (), [("out/0001.jpg", "X")], [⟨Fd.out, skipMsg "out/0001.jpg"⟩], []⟩
    ∧ download_images_for_children imgFail [(JValue.str "a:1", JValue.int 1)] "out"
        (download_images_for_children imgOk [(JValue.str "a:1", JValue.int 1)] "out" []).fs =
      ⟨Except.ok (),
        (download_images_for_children imgOk [(JValue.str "a:1", JValue.int 1)] "out" []).fs,
        List.map (fun pr => ⟨Fd.out, skipMsg (destPath "out" pr.2)⟩)
          [(JValue.str "a:1", JValue.int 1)],
        List.map (invocationOf "out") [(JValue.str "a:1", JValue.int 1)], []⟩ := by
  have h := c3_rerun_idempotent (DlOutcome.success "IMG") [("out/0001.jpg", "X")]
    "u" "out/0001.jpg" imgOk imgFail [(JValue.str "a:1", JValue.int 1)] "out" []
  exact ⟨h.1 (by decide), h.2 rfl⟩

/-- C4: If the download loop fails, it failed at some position `i`: the
error was logged to stderr with pair `i`'s pid and propagated (the loop's
result is that error), and the downloader was invoked exactly for the pairs
up to and including position `i` — never for any later pair. -/
theorem c4_first_failure_aborts (netImg : String → DlOutcome)
    (pairs : List (JValue × JValue)) (dir : String) (fs : List (String × String))
    (e : PyError)
    (h : (download_images_for_children netImg pairs dir fs).result = Except.error e) :
    ∃ i, ∃ hi : i < pairs.length,
      (download_images_for_children netImg pairs dir fs).invocations =
        (pairs.take (i + 1)).map (invocationOf dir)
      ∧ Msg.mk Fd.err (pidErrMsg (pairs.get ⟨i, hi⟩).1 e)
          ∈ (download_images_for_children netImg pairs dir fs).output :=
  batch_error_first_failure netImg pairs dir fs e h

/-- Witness for C4: a two-pair run whose first download fails aborts with
only one invocation. -/
theorem c4_first_failure_aborts_witness :
    ∃ i, ∃ hi : i <
      [(JValue.str "a:1", JValue.int 1), (JValue.str "a:2", JValue.int 2)].length,
      (download_images_for_children imgFail
          [(JValue.str "a:1", JValue.int 1), (JValue.str "a:2", JValue.int 2)]
          "out" []).invocations =
        ([(JValue.str "a:1", JValue.int 1), (JValue.str "a:2", JValue.int 2)].take (i + 1)).map
          (invocationOf "out")
      ∧ Msg.mk Fd.err (pidErrMsg
          ([(JValue.str "a:1", JValue.int 1), (JValue.str "a:2", JValue.int 2)].get
            ⟨i, hi⟩).1 (PyError.downloadError "boom"))
          ∈ (download_images_for_children imgFail
              [(JValue.str "a:1", JValue.int 1), (JValue.str "a:2", JValue.int 2)]
              "out" []).output :=
  c4_first_failure_aborts imgFail
    [(JValue.str "a:1", JValue.int 1), (JValue.str "a:2", JValue.int 2)]
    "out" [] (PyError.downloadError "boom") rfl

/-- C2: extraction fails with a distinct validation error in each of the
three cases — falsy `relations`, falsy `relations.hasPart`, and a `hasPart`
list none of whose entries passes the pid/order filter — and whenever
extraction fails on the fetched record, the run makes no downloader
invocation and no image request, exiting with code 1. -/
theorem c2_validation_errors (d : JValue) (cs : List JValue) :
    (truthy (jget d "relations") = false →
      (get_child_pids d).1 =
        Except.error (PyError.valueError "No relations found in parent data."))
    ∧ (truthy (jget d "relations") = true →
      truthy (jget (jget d "relations") "hasPart") = false →
      (get_child_pids d).1 =
        Except.error (PyError.valueError "No child items found in parent data."))
    ∧ (truthy (jget d "relations") = true →
      jget (jget d "relations") "hasPart" = JValue.arr cs →
      cs ≠ [] →
      (∀ c ∈ cs, validChild c = false) →
      (get_child_pids d).1 =
        Except.error (PyError.valueError "No valid child PIDs found."))
    ∧ (∀ (net : String → NetResult) (loads : String → Except String JValue)
        (netImg : String → DlOutcome) (pid dir : String)
        (fs : List (String × String)) (r : HttpResponse) (e : PyError),
        net (itemUrl pid) = NetResult.resp r →
        200 ≤ r.status → r.status < 300 →
        loads r.body = Except.ok d →
        (get_child_pids d).1 = Except.error e →
        (main_run net loads netImg pid dir fs).imageInvocations = []
        ∧ (main_run net loads netImg pid dir fs).imageRequests = []
        ∧ (main_run net loads netImg pid dir fs).exitCode = 1) := by
  refine ⟨?_, ?_, ?_, ?_⟩
  · intro h
    simp [get_child_pids, h]
  · intro h1 h2
    simp [get_child_pids, h1, h2]
  · intro htr harr hne hall
    have hch : truthy (JValue.arr cs) = true := by
      simp [truthy, hne]
    have hfm : cs.filterMap (fun child =>
        if validChild child then some (jget child "pid", jget child "order") else none) = [] := by
      rw [List.filterMap_eq_nil_iff]
      intro c hc
      simp [hall c hc]
    simp [get_child_pids, htr, hch, harr, hfm]
  · intro net loads netImg pid dir fs r e hnet hle hlt hloads herr
    by_cases hpid : (pyStrip pid == "") = true
    · simp [main_run, hpid]
    · have hpid' : (pyStrip pid == "") = false := Bool.eq_false_iff.mpr hpid
      have hfetch : fetch_parent_data net loads pid = (Except.ok d, []) := by
        simp [fetch_parent_data, urlopen_model, hnet, hle, hlt, hloads]
      simp [main_run, hpid', hfetch, herr]

/-- Witness for C2: one concrete record per validation case, plus a full run
on a relations-free record that makes no image request and exits 1. -/
theorem c2_validation_errors_witness :
    (get_child_pids (JValue.obj [])).1 =
      Except.error (PyError.valueError "No relations found in parent data.")
    ∧ (get_child_pids (JValue.obj [("relations", JValue.obj [("x", JValue.int 1)])])).1 =
      Except.error (PyError.valueError "No child items found in parent data.")
    ∧ (get_child_pids (JValue.obj [("relations", JValue.obj [("hasPart", JValue.arr
        [JValue.obj [("pid", JValue.str "a"), ("order", JValue.null)]])])])).1 =
      Except.error (PyError.valueError "No valid child PIDs found.")
    ∧ ((main_run netRespOk (loadsConst (JValue.obj [])) imgOk "p:1" "out" []).imageInvocations = []
      ∧ (main_run netRespOk (loadsConst (JValue.obj [])) imgOk "p:1" "out" []).imageRequests = []
      ∧ (main_run netRespOk (loadsConst (JValue.obj [])) imgOk "p:1" "out" []).exitCode = 1) := by
  have h1 := (c2_validation_errors (JValue.obj []) []).1 (by decide)
  have h2 := (c2_validation_errors (JValue.obj [("relations", JValue.obj [("x", JValue.int 1)])])
    []).2.1 (by decide) (by decide)
  have h3 := (c2_validation_errors (JValue.obj [("relations", JValue.obj [("hasPart", JValue.arr
    [JValue.obj [("pid", JValue.str "a"), ("order", JValue.null)]])])])
    [JValue.obj [("pid", JValue.str "a"), ("order", JValue.null)]]).2.2.1
    (by decide) rfl (by simp) (by decide)
  have h4 := (c2_validation_errors (JValue.obj []) []).2.2.2 netRespOk
    (loadsConst (JValue.obj [])) imgOk "p:1" "out" [] ⟨200, "OK", "BODY"⟩
    (PyError.valueError "No relations found in parent data.")
    rfl (by decide) (by decide) rfl h1
  exact ⟨h1, h2, h3, h4⟩

/-- Every message `fetch_parent_data` prints goes to stderr. -/
theorem fetch_msgs_err (net : String → NetResult) (loads : String → Except String JValue)
    (pid : String) (m : Msg) (hm : m ∈ (fetch_parent_data net loads pid).2) :
    m.stream = Fd.err := by
  unfold fetch_parent_data at hm
  cases hu : urlopen_model net (itemUrl pid) with
  | error e =>
    cases e <;> simp [hu] at hm <;> simp [hm]
  | ok body =>
    cases hl : loads body with
    | error msg =>
      simp [hu, hl] at hm
      simp [hm]
    | ok data =>
      simp [hu, hl] at hm

/-- Every message `get_child_pids` prints is the stdout `Found N` notice. -/
theorem gcp_msgs_found (d : JValue) (m : Msg) (hm : m ∈ (get_child_pids d).2) :
    ∃ n, m = ⟨Fd.out, foundMsg n⟩ := by
  simp only [get_child_pids] at hm
  split at hm
  · simp at hm
  · split at hm
    · simp at hm
    · split at hm
      · rename_i cs
        split at hm
        · simp at hm
        · simp at hm
          exact ⟨_, hm⟩
      · simp at hm

/-- Every message `download_image` prints is either the stdout skip notice
for its destination, or goes to stderr. -/
theorem dl_msgs (outcome : DlOutcome) (fs : List (String × String)) (url path : String)
    (m : Msg) (hm : m ∈ (download_image outcome fs url path).output) :
    m = ⟨Fd.out, skipMsg path⟩ ∨ m.stream = Fd.err := by
  unfold download_image at hm
  split at hm
  · simp at hm
    exact Or.inl hm
  · cases outcome <;> simp at hm <;> simp [hm]

/-- Every message the download loop prints is either a stdout skip notice,
or goes to stderr. -/
theorem batch_msgs (netImg : String → DlOutcome) (pairs : List (JValue × JValue))
    (dir : String) (fs : List (String × String)) (m : Msg)
    (hm : m ∈ (download_images_for_children netImg pairs dir fs).output) :
    (∃ p, m = ⟨Fd.out, skipMsg p⟩) ∨ m.stream = Fd.err := by
  induction pairs generalizing fs with
  | nil =>
    rw [download_images_for_children] at hm
    exact nomatch hm
  | cons pr0 rest ih =>
    obtain ⟨pid, page⟩ := pr0
    cases hres : (download_image (netImg (imageUrl (pyStr pid))) fs
        (imageUrl (pyStr pid)) (destPath dir page)).result with
    | error e =>
      rw [download_images_for_children] at hm
      simp only [hres, List.mem_append] at hm
      rcases hm with hm | hm
      · rcases dl_msgs _ _ _ _ _ hm with h | h
        · exact Or.inl ⟨_, h⟩
        · exact Or.inr h
      · simp at hm
        simp [hm]
    | ok u =>
      rw [download_images_for_children] at hm
      simp only [hres, List.mem_append] at hm
      rcases hm with hm | hm
      · rcases dl_msgs _ _ _ _ _ hm with h | h
        · exact Or.inl ⟨_, h⟩
        · exact Or.inr h
      · exact ih _ hm

theorem skipMsg_ne_foundMsg (p : String) (n : Nat) : skipMsg p ≠ foundMsg n := by
  intro h
  have hd := congrArg String.data h
  rw [show (skipMsg p).data =
      'I' :: ("mage already exists at " ++ p ++ ", skipping download.").data from rfl] at hd
  rw [show (foundMsg n).data =
      'F' :: ("ound " ++ toString n ++ " child PIDs.").data from rfl] at hd
  injection hd with h1 h2
  exact absurd h1 (by decide)

/-- C9 (amended): In every run of the program, a message on standard output
is either the `Found N child PIDs.` notice or an
`Image already exists …, skipping download.` notice; every other message
(all error reports) goes to standard error.  (The tqdm progress indicator is
drawn by the library, not printed by the program, so it is outside the
recorded messages.) -/
theorem c9_stdout_messages (net : String → NetResult)
    (loads : String → Except String JValue) (netImg : String → DlOutcome)
    (pid dir : String) (fs : List (String × String)) (m : Msg)
    (hm : m ∈ (main_run net loads netImg pid dir fs).output)
    (hout : m.stream = Fd.out) :
    (∃ n, m.text = foundMsg n) ∨ (∃ p, m.text = skipMsg p) := by
  by_cases hpid : (pyStrip pid == "") = true
  · simp [main_run, hpid] at hm
    rw [hm] at hout
    exact nomatch hout
  · have hpid' : (pyStrip pid == "") = false := Bool.eq_false_iff.mpr hpid
    cases hf : (fetch_parent_data net loads pid).1 with
    | error e =>
      simp only [main_run, hpid', Bool.false_eq_true, if_false, hf, List.mem_append] at hm
      rcases hm with hm | hm
      · rw [fetch_msgs_err net loads pid m hm] at hout
        exact nomatch hout
      · simp at hm
        rw [hm] at hout
        exact nomatch hout
    | ok data =>
      cases hg : (get_child_pids data).1 with
      | error e =>
        simp only [main_run, hpid', Bool.false_eq_true, if_false, hf, hg,
          List.mem_append] at hm
        rcases hm with (hm | hm) | hm
        · rw [fetch_msgs_err net loads pid m hm] at hout
          exact nomatch hout
        · obtain ⟨n, hn⟩ := gcp_msgs_found data m hm
          exact Or.inl ⟨n, by rw [hn]⟩
        · simp at hm
          rw [hm] at hout
          exact nomatch hout
      | ok child_pids =>
        cases hb : (download_images_for_children netImg child_pids dir fs).result with
        | error e =>
          simp only [main_run, hpid', Bool.false_eq_true, if_false, hf, hg, hb,
            List.mem_append] at hm
          rcases hm with ((hm | hm) | hm) | hm
          · rw [fetch_msgs_err net loads pid m hm] at hout
            exact nomatch hout
          · obtain ⟨n, hn⟩ := gcp_msgs_found data m hm
            exact Or.inl ⟨n, by rw [hn]⟩
          · rcases batch_msgs netImg child_pids dir fs m hm with ⟨p, hp⟩ | hp
            · exact Or.inr ⟨p, by rw [hp]⟩
            · rw [hp] at hout
              exact nomatch hout
          · simp at hm
            rw [hm] at hout
            exact nomatch hout
        | ok u =>
          simp only [main_run, hpid', Bool.false_eq_true, if_false, hf, hg, hb,
            List.mem_append] at hm
          rcases hm with (hm | hm) | hm
          · rw [fetch_msgs_err net loads pid m hm] at hout
            exact nomatch hout
          · obtain ⟨n, hn⟩ := gcp_msgs_found data m hm
            exact Or.inl ⟨n, by rw [hn]⟩
          · rcases batch_msgs netImg child_pids dir fs m hm with ⟨p, hp⟩ | hp
            · exact Or.inr ⟨p, by rw [hp]⟩
            · rw [hp] at hout
              exact nomatch hout

/-- Witness for the amended C9 at a concrete run and message. -/
theorem c9_stdout_messages_witness :
    (∃ n, (Msg.mk Fd.out (foundMsg 2)).text = foundMsg n)
    ∨ (∃ p, (Msg.mk Fd.out (foundMsg 2)).text = skipMsg p) :=
  c9_stdout_messages netRespOk (loadsConst rec7) imgOk "p:1" "out"
    [("out/0001.jpg", "X")] ⟨Fd.out, foundMsg 2⟩ (by decide) rfl

/-- C9 (counterexample): the claim that standard output carries only the
progress indicator and the `Found N child PIDs.` notice is false: in the
concrete run `run9` the program prints the stdout message
`Image already exists at out/0001.jpg, skipping download.`, which is not
the `Found N` notice for any `N` (and the progress indicator is not among
the program's printed messages at all). -/
theorem c9_stdout_counterexample :
    ∃ m, m ∈ run9.output ∧ m.stream = Fd.out ∧ ∀ n : Nat, m.text ≠ foundMsg n := by
  refine ⟨⟨Fd.out, skipMsg "out/0001.jpg"⟩, ?_, rfl, ?_⟩
  · have h : run9.output = [⟨Fd.out, foundMsg 2⟩, ⟨Fd.out, skipMsg "out/0001.jpg"⟩] := rfl
    rw [h]
    simp
  · intro n
    exact skipMsg_ne_foundMsg "out/0001.jpg" n
